import Mathlib

/-!
Verification of the package linting engine of ipres-package-cloud
(src/ipres_package_cloud/lint_ft.py).

The filesystem is modelled as a tree of entries: a file with a name and a
byte size, or a directory with a name and a list of child entries.  A
package is a directory that is assumed to exist (the CLI validates the
input paths before the linter runs).  Each structural predicate of
lint_ft.py is translated into a function from a package to a boolean
result paired with the list of diagnostics it sends to the module logger;
the one predicate that can raise a Python exception on an irregular tree
(metadata_folder_is_flat, whose iterdir call fails when the metadata child
is missing or is a plain file) returns an Except value instead.
-/

mutual
inductive FsEntry : Type where
  | file (name : String) (size : Nat)
  | dir (name : String) (children : FsList)
inductive FsList : Type where
  | nil
  | cons (e : FsEntry) (rest : FsList)
end

def FsList.toList : FsList → List FsEntry
  | .nil => []
  | .cons e rest => e :: rest.toList

def FsList.push : FsList → FsEntry → FsList
  | .nil, e => .cons e .nil
  | .cons x r, e => .cons x (r.push e)

def FsEntry.entryName : FsEntry → String
  | .file n _ => n
  | .dir n _ => n

def FsEntry.isDir : FsEntry → Bool
  | .dir _ _ => true
  | .file _ _ => false

def FsEntry.isFile : FsEntry → Bool
  | .file _ _ => true
  | .dir _ _ => false

/-- The st_size field of a stat call; only ever used on file entries. -/
def FsEntry.byteSize : FsEntry → Nat
  | .file _ s => s
  | .dir _ _ => 0

def FsEntry.childrenOf : FsEntry → List FsEntry
  | .file _ _ => []
  | .dir _ cs => cs.toList

/-- A package directory: the directory name and its child entries. -/
structure Package : Type where
  name : String
  children : FsList

/-- Path.iterdir on the package root, which the CLI guarantees exists. -/
def Package.iterdir (p : Package) : List FsEntry :=
  p.children.toList

mutual
/--
Path.rglob with pattern star: every entry strictly below the given
directory, in the order CPython produces it, namely the children of each
directory, directories being scanned in depth-first preorder.
-/
def rglobEntry : FsEntry → List FsEntry
  | .file _ _ => []
  | .dir _ cs => cs.toList ++ rglobList cs
def rglobList : FsList → List FsEntry
  | .nil => []
  | .cons e rest => rglobEntry e ++ rglobList rest
end

def Package.rglob (p : Package) : List FsEntry :=
  p.children.toList ++ rglobList p.children

/-- Looking a child entry up by name inside one directory level. -/
def findChild (cs : List FsEntry) (n : String) : Option FsEntry :=
  cs.find? (fun c => c.entryName == n)

/--
re.fullmatch of the raw pattern ACQ underscore four digits underscore six
digits: the whole string must be the literal prefix, four ASCII digits,
an underscore, and six ASCII digits, case sensitively.
-/
def matchACQ (s : String) : Bool :=
  let l := s.toList
  l.length == 15 &&
  l.take 4 == ['A', 'C', 'Q', '_'] &&
  ((l.drop 4).take 4).all Char.isDigit &&
  (l.drop 8).take 1 == ['_'] &&
  (l.drop 9).all Char.isDigit

/-- str.startswith, at the level of the character sequences. -/
def strStartsWith (s pre : String) : Bool :=
  pre.toList.isPrefixOf s.toList

/-- Python set equality between two lists of strings. -/
def setEqBool (xs ys : List String) : Bool :=
  xs.all (fun x => ys.contains x) && ys.all (fun y => xs.contains y)

/-- Severity of a record sent to the module logger. -/
inductive Severity : Type where
  | error
  | warning
deriving DecidableEq

/-- One record sent to the module logger by a failing predicate. -/
structure Diag : Type where
  severity : Severity
  message : String
deriving DecidableEq

/-- The two Python exceptions Path.iterdir can raise on a bad base path. -/
inductive PyErr : Type where
  | fileNotFoundError
  | notADirectoryError
deriving DecidableEq

/-- Top level folder name has to conform to the ACQ pattern. -/
def package_has_valid_name (p : Package) : Bool × List Diag :=
  if matchACQ p.name then (true, [])
  else (false, [Diag.mk Severity.error (p.name ++ " does not conform to ACQ_####_######")])

/-- There must be two subfolders in the package. -/
def package_has_two_subfolders (p : Package) : Bool × List Diag :=
  let pkg_folders := p.iterdir.filter FsEntry.isDir
  if pkg_folders.length = 2 then (true, [])
  else (false, [Diag.mk Severity.error (p.name ++ " does not have exactly two subfolders")])

/--
Second level folders must be objects and metadata.  Mirrors the source
exactly: the found set is built from every immediate child of the
package, files included, because the underlying list comprehension does
not filter on is_dir.
-/
def package_has_valid_subfolder_names (p : Package) : Bool × List Diag :=
  let expected := ["objects", "metadata"]
  let found := p.iterdir.map FsEntry.entryName
  if setEqBool expected found then (true, [])
  else (false, [Diag.mk Severity.error
    (p.name ++ " subfolders should have objects and metadata, found " ++
      String.intercalate ", " found)])

/-- The package should not have any hidden file. -/
def package_has_no_hidden_file (p : Package) : Bool × List Diag :=
  let hidden_ls := p.rglob.filter
    (fun h => strStartsWith h.entryName "." || strStartsWith h.entryName "Thumbs")
  if hidden_ls.isEmpty then (true, [])
  else (false, [Diag.mk Severity.warning
    (p.name ++ " has hidden files " ++ String.intercalate ", " (hidden_ls.map FsEntry.entryName))])

/-- The package should not have any zero bytes file. -/
def package_has_no_zero_bytes_file (p : Package) : Bool × List Diag :=
  let all_file := p.rglob.filter FsEntry.isFile
  let zero_bytes_ls := all_file.filter (fun f => f.byteSize == 0)
  if zero_bytes_ls.isEmpty then (true, [])
  else (false, [Diag.mk Severity.warning
    (p.name ++ " has zero bytes file " ++ String.intercalate ", " (zero_bytes_ls.map FsEntry.entryName))])

/--
The metadata folder should not have folder structure.  The source calls
iterdir on the metadata path directly, so a package without a metadata
directory raises FileNotFoundError and a package whose metadata child is
a plain file raises NotADirectoryError; both propagate to the caller.
-/
def metadata_folder_is_flat (p : Package) : Except PyErr (Bool × List Diag) :=
  match findChild p.iterdir "metadata" with
  | some (FsEntry.dir _ cs) =>
    let md_dir_ls := cs.toList.filter FsEntry.isDir
    if md_dir_ls.isEmpty then Except.ok (true, [])
    else Except.ok (false, [Diag.mk Severity.error
      (p.name ++ " has unexpected directory: " ++ String.intercalate ", " (md_dir_ls.map FsEntry.entryName))])
  | some (FsEntry.file _ _) => Except.error PyErr.notADirectoryError
  | none => Except.error PyErr.fileNotFoundError

/--
Path.rglob on the metadata child: glob treats a missing base path or a
plain file base path as producing no entries at all, without raising.
-/
def metadataRglob (p : Package) : List FsEntry :=
  match findChild p.iterdir "metadata" with
  | some e => rglobEntry e
  | none => []

/-- The metadata folder should have one or more file. -/
def metadata_folder_has_files (p : Package) : Bool × List Diag :=
  let md_files_ls := (metadataRglob p).filter FsEntry.isFile
  if md_files_ls.isEmpty then
    (false, [Diag.mk Severity.warning (p.name ++ " metadata folder does not have any files")])
  else (true, [])

/-- The metadata file name should be in the accepted list. -/
def metadata_has_correct_naming_convention (p : Package) : Bool × List Diag :=
  let accepted_fn := ["rclone.log"]
  let md_files_ls := (metadataRglob p).filter FsEntry.isFile
  let nonconforming := md_files_ls.filter (fun f => !(accepted_fn.contains f.entryName))
  if nonconforming.isEmpty then (true, [])
  else (false, [Diag.mk Severity.error
    (p.name ++ " has nonconforming metadata file(s): " ++
      String.intercalate ", " (nonconforming.map FsEntry.entryName))])

/-- The five names whose existence under objects the source checks. -/
def objectsExpectedNames : List String :=
  ["data", "bag-info.txt", "bagit.txt", "manifest-md5.txt", "tagmanifest-md5.txt"]

/-- The children of the objects child when it exists and is a directory. -/
def objectsChildEntries (p : Package) : Option (List FsEntry) :=
  match findChild p.iterdir "objects" with
  | some (FsEntry.dir _ cs) => some cs.toList
  | _ => none

/-- Path.exists for a path of the form package slash objects slash n. -/
def objectsPathExists (p : Package) (n : String) : Bool :=
  match objectsChildEntries p with
  | some cs => (findChild cs n).isSome
  | none => false

/--
The objects folder should have a data folder and the four bag files
bag-info.txt, bagit.txt, manifest-md5.txt and tagmanifest-md5.txt; each
of the five paths is only required to exist, the source never checks the
kind of the entry.  The missing names are listed in the diagnostic in
the order the source builds its expected_paths list.
-/
def objects_folder_correct_structure (p : Package) : Bool × List Diag :=
  let missing := objectsExpectedNames.filter (fun n => !(objectsPathExists p n))
  if missing.isEmpty then (true, [])
  else (false, [Diag.mk Severity.error
    (p.name ++ " has incorrect structure. missing " ++ String.intercalate ", " missing)])

/-- Path.rglob on the objects child, with the same glob tolerance. -/
def objectsRglob (p : Package) : List FsEntry :=
  match findChild p.iterdir "objects" with
  | some e => rglobEntry e
  | none => []

/--
The objects folder should not have any empty folders.  Only directories
returned by rglob on objects, which are the directories strictly below
objects, are tested; the objects directory itself is never in that list.
-/
def objects_folder_has_no_empty_folder (p : Package) : Bool × List Diag :=
  let folder_in_obj := (objectsRglob p).filter FsEntry.isDir
  let empty := folder_in_obj.filter (fun f => f.childrenOf.isEmpty)
  if empty.isEmpty then (true, [])
  else (false, [Diag.mk Severity.error
    (p.name ++ " has empty folder: " ++ String.intercalate ", " (empty.map FsEntry.entryName))])

/--
Run all linting tests against a package, with the process wide logger
made explicit: the result is the verdict string the Python function
returns, paired with the list of log records emitted, in emission order
(the three advisory tests first, then the seven strict tests).  When
metadata_folder_is_flat raises, the exception propagates and the whole
call produces that error, exactly as in the source, where no predicate
call is wrapped in a try block.
-/
def lint_package_logged (p : Package) : Except PyErr (String × List Diag) :=
  let hid := package_has_no_hidden_file p
  let zb := package_has_no_zero_bytes_file p
  let mdf := metadata_folder_has_files p
  let result1 := if hid.1 && zb.1 && mdf.1 then "valid" else "needs review"
  let vn := package_has_valid_name p
  let ts := package_has_two_subfolders p
  let sn := package_has_valid_subfolder_names p
  match metadata_folder_is_flat p with
  | Except.error e => Except.error e
  | Except.ok fl =>
    let nc := metadata_has_correct_naming_convention p
    let os := objects_folder_correct_structure p
    let ne := objects_folder_has_no_empty_folder p
    let verdict :=
      if vn.1 && ts.1 && sn.1 && fl.1 && nc.1 && os.1 && ne.1 then result1 else "invalid"
    Except.ok (verdict,
      hid.2 ++ zb.2 ++ mdf.2 ++ vn.2 ++ ts.2 ++ sn.2 ++ fl.2 ++ nc.2 ++ os.2 ++ ne.2)

/-- The value lint_package actually returns to its caller: the verdict only. -/
def lint_package (p : Package) : Except PyErr String :=
  (lint_package_logged p).map Prod.fst

/-- Whether lint_package returns normally with the given verdict. -/
def hasVerdict (p : Package) (v : String) : Bool :=
  match lint_package p with
  | Except.ok r => r == v
  | Except.error _ => false

/-- True when the metadata child of the package exists and is a directory. -/
def metadataDirExists (p : Package) : Bool :=
  match findChild p.iterdir "metadata" with
  | some (FsEntry.dir _ _) => true
  | _ => false

/-- The summary state the batch loop of main builds up. -/
structure BatchResult : Type where
  valid : List String
  invalid : List String
  needs_review : List String
  counter : Nat
deriving DecidableEq

/-- One iteration of the batch loop of main. -/
def batchStep (st : BatchResult) (nm result : String) : BatchResult :=
  if result == "valid" then
    { st with valid := st.valid ++ [nm], counter := st.counter + 1 }
  else if result == "invalid" then
    { st with invalid := st.invalid ++ [nm], counter := st.counter + 1 }
  else
    { st with needs_review := st.needs_review ++ [nm], counter := st.counter + 1 }

/--
The batch loop of main: packages are processed in the given order and an
uncaught exception from lint_package aborts the whole run before any
summary is printed.
-/
def runBatchFrom (st : BatchResult) : List Package → Except PyErr BatchResult
  | [] => Except.ok st
  | p :: rest =>
    match lint_package p with
    | Except.error e => Except.error e
    | Except.ok r => runBatchFrom (batchStep st p.name r) rest

def runBatch (ps : List Package) : Except PyErr BatchResult :=
  runBatchFrom (BatchResult.mk [] [] [] 0) ps

/-- At least one of the seven strict predicates reports a failure. -/
def blockingFailure (p : Package) : Prop :=
  (package_has_valid_name p).1 = false ∨
  (package_has_two_subfolders p).1 = false ∨
  (package_has_valid_subfolder_names p).1 = false ∨
  (∃ d, metadata_folder_is_flat p = Except.ok (false, d)) ∨
  (metadata_has_correct_naming_convention p).1 = false ∨
  (objects_folder_correct_structure p).1 = false ∨
  (objects_folder_has_no_empty_folder p).1 = false

/-- At least one of the three advisory predicates reports a failure. -/
def advisoryFailure (p : Package) : Prop :=
  (package_has_no_hidden_file p).1 = false ∨
  (package_has_no_zero_bytes_file p).1 = false ∨
  (metadata_folder_has_files p).1 = false

/-- The number of diagnostics a predicate result contributes: one iff it failed. -/
def failTally (b : Bool) : Nat :=
  if b then 0 else 1

/-- Existence of a path given by successive child names below the package root. -/
def pathExistsIn (cs : List FsEntry) : List String → Bool
  | [] => true
  | [n] => (findChild cs n).isSome
  | n :: rest =>
    match findChild cs n with
    | some (FsEntry.dir _ cs2) => pathExistsIn cs2.toList rest
    | _ => false

/-- The names among the five expected ones whose path under objects is absent. -/
def missingNamesSpec (p : Package) : List String :=
  objectsExpectedNames.filter (fun n => !(pathExistsIn p.iterdir ["objects", n]))

/-- The single diagnostic objects_folder_correct_structure emits on failure. -/
def objectsMissingDiag (p : Package) : Diag :=
  Diag.mk Severity.error
    (p.name ++ " has incorrect structure. missing " ++ String.intercalate ", " (missingNamesSpec p))

/--
The filesystem calls the linter can issue, together with the mutating
calls pathlib offers (used elsewhere in the repository, for example the
touch in the log setup, but never during linting).
-/
inductive FsCall : Type where
  | readIterdir (path : String)
  | readRglob (path : String)
  | readStat (path : String)
  | readExists (path : String)
  | writeTouch (path : String)
  | writeMkdir (path : String)

def FsCall.isRead : FsCall → Bool
  | .readIterdir _ => true
  | .readRglob _ => true
  | .readStat _ => true
  | .readExists _ => true
  | .writeTouch _ => false
  | .writeMkdir _ => false

/--
The effect of one filesystem call on the package tree: the read calls
observe and leave the tree unchanged; touch creates a missing file and
mkdir a missing directory at the package root.
-/
def applyCall (p : Package) : FsCall → Package
  | FsCall.writeTouch n =>
    if (findChild p.iterdir n).isSome then p
    else { p with children := p.children.push (FsEntry.file n 0) }
  | FsCall.writeMkdir n =>
    if (findChild p.iterdir n).isSome then p
    else { p with children := p.children.push (FsEntry.dir n FsList.nil) }
  | _ => p

def trace_package_has_valid_name (_ : Package) : List FsCall := []

def trace_package_has_two_subfolders (p : Package) : List FsCall :=
  FsCall.readIterdir p.name :: p.iterdir.map (fun c => FsCall.readStat c.entryName)

def trace_package_has_valid_subfolder_names (p : Package) : List FsCall :=
  [FsCall.readIterdir p.name]

def trace_package_has_no_hidden_file (p : Package) : List FsCall :=
  [FsCall.readRglob p.name]

def trace_package_has_no_zero_bytes_file (p : Package) : List FsCall :=
  FsCall.readRglob p.name ::
    (p.rglob.map (fun e => FsCall.readStat e.entryName) ++
      (p.rglob.filter FsEntry.isFile).map (fun e => FsCall.readStat e.entryName))

def trace_metadata_folder_is_flat (p : Package) : List FsCall :=
  FsCall.readIterdir "metadata" ::
    (match findChild p.iterdir "metadata" with
     | some (FsEntry.dir _ cs) => cs.toList.map (fun c => FsCall.readStat c.entryName)
     | _ => [])

def trace_metadata_folder_has_files (p : Package) : List FsCall :=
  FsCall.readRglob "metadata" :: (metadataRglob p).map (fun e => FsCall.readStat e.entryName)

def trace_metadata_has_correct_naming_convention (p : Package) : List FsCall :=
  FsCall.readRglob "metadata" :: (metadataRglob p).map (fun e => FsCall.readStat e.entryName)

def trace_objects_folder_correct_structure (_ : Package) : List FsCall :=
  objectsExpectedNames.map (fun n => FsCall.readExists n)

def trace_objects_folder_has_no_empty_folder (p : Package) : List FsCall :=
  FsCall.readRglob "objects" ::
    ((objectsRglob p).map (fun e => FsCall.readStat e.entryName) ++
      ((objectsRglob p).filter FsEntry.isDir).map (fun d => FsCall.readIterdir d.entryName))

/--
The filesystem calls one lint_package evaluation issues, in evaluation
order; when metadata_folder_is_flat raises, the three predicates after it
never run.
-/
def lintPackageTrace (p : Package) : List FsCall :=
  trace_package_has_no_hidden_file p ++
  trace_package_has_no_zero_bytes_file p ++
  trace_metadata_folder_has_files p ++
  trace_package_has_valid_name p ++
  trace_package_has_two_subfolders p ++
  trace_package_has_valid_subfolder_names p ++
  trace_metadata_folder_is_flat p ++
  (match metadata_folder_is_flat p with
   | Except.ok _ =>
     trace_metadata_has_correct_naming_convention p ++
     trace_objects_folder_correct_structure p ++
     trace_objects_folder_has_no_empty_folder p
   | Except.error _ => [])

/-- Turn a plain list of entries into the child list of a directory. -/
def fsl : List FsEntry → FsList
  | [] => FsList.nil
  | e :: r => FsList.cons e (fsl r)

/-- A fully conforming objects subtree, as in the good_package test fixture. -/
def goodObjects : FsList :=
  fsl [FsEntry.dir "data" (fsl [FsEntry.file "file_1.txt" 19]),
       FsEntry.file "bag-info.txt" 19, FsEntry.file "bagit.txt" 19,
       FsEntry.file "manifest-md5.txt" 19, FsEntry.file "tagmanifest-md5.txt" 19]

/-- A conforming metadata subtree holding one nonempty rclone.log. -/
def goodMeta : FsList :=
  fsl [FsEntry.file "rclone.log" 23]

def goodChildren : FsList :=
  fsl [FsEntry.dir "objects" goodObjects, FsEntry.dir "metadata" goodMeta]

/-- A fully conforming package. -/
def goodPkg : Package :=
  Package.mk "ACQ_1234_123456" goodChildren

/-- A package whose metadata subdirectory is missing entirely. -/
def cexNoMetadata : Package :=
  Package.mk "ACQ_1234_123456" (fsl [FsEntry.dir "objects" goodObjects])

/-- A package whose metadata child is a plain file rather than a directory. -/
def cexMetadataFile : Package :=
  Package.mk "ACQ_1234_123456" (fsl [FsEntry.dir "objects" goodObjects, FsEntry.file "metadata" 5])

/-- A conforming package with one extra plain file at the top level. -/
def cexExtraFile : Package :=
  Package.mk "ACQ_1234_123456"
    (fsl [FsEntry.dir "objects" goodObjects, FsEntry.dir "metadata" goodMeta,
          FsEntry.file "extra.txt" 3])

/-- A package failing exactly one strict predicate, the name check. -/
def pkgBadName : Package :=
  Package.mk "ACQ_BAD" goodChildren

/-- A package failing the name check and, through an extra directory, two more. -/
def pkgBadNameExtraDir : Package :=
  Package.mk "ACQ_BAD"
    (fsl [FsEntry.dir "objects" goodObjects, FsEntry.dir "metadata" goodMeta,
          FsEntry.dir "extra" FsList.nil])

/-- The conforming package with its name lowercased. -/
def pkgLower : Package :=
  Package.mk "acq_1234_123456" goodChildren

/-- A package whose objects directory exists but is entirely empty. -/
def pkgEmptyObjects : Package :=
  Package.mk "ACQ_0000_000000" (fsl [FsEntry.dir "objects" FsList.nil, FsEntry.dir "metadata" goodMeta])

/-- A package whose objects folder lacks the bagit.txt sidecar file. -/
def pkgNoBagit : Package :=
  Package.mk "ACQ_1234_123456"
    (fsl [FsEntry.dir "objects"
            (fsl [FsEntry.dir "data" (fsl [FsEntry.file "file_1.txt" 19]),
                  FsEntry.file "bag-info.txt" 19,
                  FsEntry.file "manifest-md5.txt" 19,
                  FsEntry.file "tagmanifest-md5.txt" 19]),
          FsEntry.dir "metadata" goodMeta])

/-- The shape of a valid package name, stated structurally. -/
def ValidNameSpec (s : String) : Prop :=
  ∃ d e : List Char,
    s.toList = ['A', 'C', 'Q', '_'] ++ d ++ '_' :: e ∧
    d.length = 4 ∧ (∀ c ∈ d, c.isDigit = true) ∧
    e.length = 6 ∧ (∀ c ∈ e, c.isDigit = true)

/-! ## Helper lemmas -/

theorem and7_eq_false_iff (a b c d e f g : Bool) :
    (a && b && c && d && e && f && g) = false ↔
      a = false ∨ b = false ∨ c = false ∨ d = false ∨ e = false ∨ f = false ∨ g = false := by
  cases a <;> cases b <;> cases c <;> cases d <;> cases e <;> cases f <;> cases g <;> simp

theorem and3_eq_false_iff (a b c : Bool) :
    (a && b && c) = false ↔ a = false ∨ b = false ∨ c = false := by
  cases a <;> cases b <;> cases c <;> simp

theorem setEqBool_iff (xs ys : List String) :
    setEqBool xs ys = true ↔ xs.toFinset = ys.toFinset := by
  simp only [setEqBool, Bool.and_eq_true, List.all_eq_true, Finset.ext_iff, List.mem_toFinset]
  constructor
  · rintro ⟨h1, h2⟩ a
    constructor
    · intro ha
      simpa using h1 a ha
    · intro ha
      simpa using h2 a ha
  · intro h
    constructor
    · intro a ha
      simpa using (h a).mp ha
    · intro a ha
      simpa using (h a).mpr ha

theorem lint_package_logged_of_flat_ok (p : Package) (fl : Bool × List Diag)
    (h : metadata_folder_is_flat p = Except.ok fl) :
    lint_package_logged p = Except.ok (
      (if (package_has_valid_name p).1 && (package_has_two_subfolders p).1 &&
          (package_has_valid_subfolder_names p).1 && fl.1 &&
          (metadata_has_correct_naming_convention p).1 &&
          (objects_folder_correct_structure p).1 &&
          (objects_folder_has_no_empty_folder p).1
       then (if (package_has_no_hidden_file p).1 && (package_has_no_zero_bytes_file p).1 &&
                (metadata_folder_has_files p).1 then "valid" else "needs review")
       else "invalid"),
      (package_has_no_hidden_file p).2 ++ (package_has_no_zero_bytes_file p).2 ++
      (metadata_folder_has_files p).2 ++ (package_has_valid_name p).2 ++
      (package_has_two_subfolders p).2 ++ (package_has_valid_subfolder_names p).2 ++
      fl.2 ++ (metadata_has_correct_naming_convention p).2 ++
      (objects_folder_correct_structure p).2 ++ (objects_folder_has_no_empty_folder p).2) := by
  unfold lint_package_logged
  rw [h]

theorem lint_package_logged_of_flat_error (p : Package) (e : PyErr)
    (h : metadata_folder_is_flat p = Except.error e) :
    lint_package_logged p = Except.error e := by
  unfold lint_package_logged
  rw [h]

theorem ite_fst_true_iff (c : Prop) [Decidable c] (l1 l2 : List Diag) :
    ((if c then ((true : Bool), l1) else (false, l2)).1 = true) ↔ c := by
  split <;> simp_all

/-! ## Claim C2: exception behaviour of lint_package -/

/--
Claim C2, amended: the rglob based scans tolerate missing directories,
but lint_package evaluates without an exception exactly when the metadata
child of the package exists and is a directory; when it is missing or is
a plain file, the iterdir call inside metadata_folder_is_flat raises and
the exception propagates out of lint_package.
-/
theorem lint_package_ok_iff_metadata_dir (p : Package) :
    (lint_package_logged p).isOk = true ↔ metadataDirExists p = true := by
  unfold metadataDirExists
  cases h : findChild p.iterdir "metadata" with
  | none =>
    have he : metadata_folder_is_flat p = Except.error PyErr.fileNotFoundError := by
      simp [metadata_folder_is_flat, h]
    rw [lint_package_logged_of_flat_error p _ he]
    simp [Except.isOk, Except.toBool]
  | some e =>
    cases e with
    | file n s =>
      have he : metadata_folder_is_flat p = Except.error PyErr.notADirectoryError := by
        simp [metadata_folder_is_flat, h]
      rw [lint_package_logged_of_flat_error p _ he]
      simp [Except.isOk, Except.toBool]
    | dir n cs =>
      have hok : ∃ fl, metadata_folder_is_flat p = Except.ok fl := by
        simp only [metadata_folder_is_flat, h]
        split
        · exact ⟨_, rfl⟩
        · exact ⟨_, rfl⟩
      obtain ⟨fl, hfl⟩ := hok
      rw [lint_package_logged_of_flat_ok p fl hfl]
      simp [Except.isOk, Except.toBool]

/-- Witness for the amended claim C2 at the conforming package. -/
theorem lint_package_ok_iff_metadata_dir_witness :
    (lint_package_logged goodPkg).isOk = true :=
  (lint_package_ok_iff_metadata_dir goodPkg).mpr rfl

/--
Counterexample to claim C2 as stated: on a package without a metadata
subdirectory, the FileNotFoundError raised inside metadata_folder_is_flat
propagates out of predicate evaluation and out of lint_package, and the
batch run aborts instead of completing with a summary.
-/
theorem lint_package_exception_propagates_cex :
    lint_package_logged cexNoMetadata = Except.error PyErr.fileNotFoundError ∧
    lint_package cexNoMetadata = Except.error PyErr.fileNotFoundError ∧
    runBatch [cexNoMetadata] = Except.error PyErr.fileNotFoundError :=
  ⟨rfl, rfl, rfl⟩

/-! ## Claim C3: the subfolder name check -/

/--
Counterexample to claim C3 as stated: in a package whose immediate child
directories are named exactly objects and metadata but which also holds
one extra plain file, the predicate returns false, so entries that are
not directories do affect the result.
-/
theorem package_has_valid_subfolder_names_cex :
    ((cexExtraFile.iterdir.filter FsEntry.isDir).map FsEntry.entryName) = ["objects", "metadata"] ∧
    (package_has_valid_subfolder_names cexExtraFile).1 = false :=
  ⟨rfl, rfl⟩

/--
Claim C3, amended: the predicate returns true if and only if the set of
names of all immediate children of the package, directories and files
alike, equals the set containing objects and metadata.
-/
theorem package_has_valid_subfolder_names_iff (p : Package) :
    (package_has_valid_subfolder_names p).1 = true ↔
      (p.iterdir.map FsEntry.entryName).toFinset = ({"objects", "metadata"} : Finset String) := by
  simp only [package_has_valid_subfolder_names]
  rw [ite_fst_true_iff, setEqBool_iff]
  have h2 : (["objects", "metadata"] : List String).toFinset =
      ({"objects", "metadata"} : Finset String) := by
    simp
  rw [h2]
  exact eq_comm

/-- Witness for the amended claim C3 at the conforming package. -/
theorem package_has_valid_subfolder_names_iff_witness :
    (goodPkg.iterdir.map FsEntry.entryName).toFinset = ({"objects", "metadata"} : Finset String) :=
  (package_has_valid_subfolder_names_iff goodPkg).mp rfl

/-! ## Claim C8: determinism of the verdict -/

/--
Claim C8: the verdict and the diagnostic list are a function of the
package tree alone; two evaluations of the same unmodified on disk
contents, here two packages with equal trees, produce identical results.
The embedding makes the on disk contents an explicit value, so there is
no hidden cache or memo to vary between the two calls.
-/
theorem lint_package_pure (p q : Package) (h : p = q) :
    lint_package_logged p = lint_package_logged q ∧ lint_package p = lint_package q := by
  subst h
  exact ⟨rfl, rfl⟩

/-- Witness for claim C8 at the conforming package. -/
theorem lint_package_pure_witness :
    goodPkg = goodPkg ∧
    lint_package_logged goodPkg = lint_package_logged goodPkg ∧
    lint_package goodPkg = lint_package goodPkg :=
  ⟨rfl, lint_package_pure goodPkg goodPkg rfl⟩

/-! ## Claim C10: empty objects directory is not flagged -/

/--
Claim C10: rglob on objects lists only entries strictly below objects, so
the empty folder scan never tests the objects directory itself; in
particular a package whose objects directory has no entries at all passes
the predicate, and in general the predicate holds exactly when every
directory strictly below objects has at least one entry.
-/
theorem objects_folder_has_no_empty_folder_correct (p : Package) :
    (∀ nm, findChild p.iterdir "objects" = some (FsEntry.dir nm FsList.nil) →
      (objects_folder_has_no_empty_folder p).1 = true) ∧
    ((objects_folder_has_no_empty_folder p).1 = true ↔
      ∀ d ∈ objectsRglob p, d.isDir = true → d.childrenOf ≠ []) := by
  constructor
  · intro nm h
    have hempty : objectsRglob p = [] := by
      simp [objectsRglob, h, rglobEntry, rglobList, FsList.toList]
    simp [objects_folder_has_no_empty_folder, hempty]
  · simp only [objects_folder_has_no_empty_folder]
    rw [ite_fst_true_iff]
    simp only [List.isEmpty_iff, List.filter_eq_nil_iff, List.mem_filter, and_imp,
      Bool.not_eq_true]

/-- Witness for claim C10 at a package with an entirely empty objects directory. -/
theorem objects_folder_has_no_empty_folder_correct_witness :
    (objects_folder_has_no_empty_folder pkgEmptyObjects).1 = true :=
  (objects_folder_has_no_empty_folder_correct pkgEmptyObjects).1 "objects" rfl

/-! ## Claim C4: the name pattern -/

theorem matchACQ_iff (s : String) : matchACQ s = true ↔ ValidNameSpec s := by
  unfold matchACQ ValidNameSpec
  simp only [Bool.and_eq_true, beq_iff_eq, List.all_eq_true]
  constructor
  · rintro ⟨⟨⟨⟨h1, h2⟩, h3⟩, h4⟩, h5⟩
    refine ⟨(s.toList.drop 4).take 4, s.toList.drop 9, ?_, ?_, h3, ?_, h5⟩
    · have e1 : s.toList = s.toList.take 4 ++ s.toList.drop 4 :=
        (List.take_append_drop 4 s.toList).symm
      have e2 : s.toList.drop 4 = (s.toList.drop 4).take 4 ++ (s.toList.drop 4).drop 4 :=
        (List.take_append_drop 4 (s.toList.drop 4)).symm
      have e3 : (s.toList.drop 4).drop 4 = s.toList.drop 8 := by
        rw [List.drop_drop]
      have e4 : s.toList.drop 8 = (s.toList.drop 8).take 1 ++ (s.toList.drop 8).drop 1 :=
        (List.take_append_drop 1 (s.toList.drop 8)).symm
      have e5 : (s.toList.drop 8).drop 1 = s.toList.drop 9 := by
        rw [List.drop_drop]
      have tail9 : s.toList.drop 8 = '_' :: s.toList.drop 9 := by
        conv_lhs => rw [e4]
        rw [h4, e5]
        rfl
      have tail4 : s.toList.drop 4 = (s.toList.drop 4).take 4 ++ '_' :: s.toList.drop 9 := by
        conv_lhs => rw [e2]
        rw [e3, tail9]
      conv_lhs => rw [e1, h2, tail4]
      rw [List.append_assoc]
    · rw [List.length_take, List.length_drop, h1]
      decide
    · rw [List.length_drop, h1]
  · rintro ⟨d, e, hdec, hd4, hdig, he6, hedig⟩
    have h1 : s.toList.length = 15 := by
      rw [hdec]
      simp [hd4, he6]
    have h2 : s.toList.take 4 = ['A', 'C', 'Q', '_'] := by
      rw [hdec, List.append_assoc]
      exact List.take_left' rfl
    have hdrop4 : s.toList.drop 4 = d ++ '_' :: e := by
      rw [hdec, List.append_assoc]
      exact List.drop_left' rfl
    have h3 : (s.toList.drop 4).take 4 = d := by
      rw [hdrop4]
      exact List.take_left' hd4
    have hdrop8 : s.toList.drop 8 = '_' :: e := by
      rw [hdec]
      refine List.drop_left' ?_
      simp [hd4]
    have hdrop9 : s.toList.drop 9 = e := by
      have hdec9 : s.toList = ((['A', 'C', 'Q', '_'] ++ d) ++ ['_']) ++ e := by
        rw [hdec]
        simp
      rw [hdec9]
      refine List.drop_left' ?_
      simp [hd4]
    refine ⟨⟨⟨⟨h1, h2⟩, ?_⟩, ?_⟩, ?_⟩
    · rw [h3]
      exact hdig
    · rw [hdrop8]
      rfl
    · rw [hdrop9]
      exact hedig

/--
Claim C4: the valid name predicate accepts exactly the strings made of
the literal uppercase ACQ, an underscore, four ASCII digits, an
underscore, and six ASCII digits; and any package failing it for which
lint_package returns a verdict at all receives the verdict invalid.
-/
theorem package_has_valid_name_correct (p : Package) :
    ((package_has_valid_name p).1 = true ↔ ValidNameSpec p.name) ∧
    (∀ v, (package_has_valid_name p).1 = false → lint_package p = Except.ok v → v = "invalid") := by
  constructor
  · simp only [package_has_valid_name]
    rw [ite_fst_true_iff]
    exact matchACQ_iff p.name
  · intro v hfalse hok
    unfold lint_package at hok
    cases hf : metadata_folder_is_flat p with
    | error e =>
      rw [lint_package_logged_of_flat_error p e hf] at hok
      simp [Except.map] at hok
    | ok fl =>
      rw [lint_package_logged_of_flat_ok p fl hf] at hok
      simp [Except.map, hfalse] at hok
      exact hok.symm

/--
Witness for claim C4: the lowercase variant of a conforming name fails
the predicate and the package receives the verdict invalid.
-/
theorem package_has_valid_name_correct_witness :
    (package_has_valid_name pkgLower).1 = false ∧
    lint_package pkgLower = Except.ok "invalid" ∧
    ("invalid" : String) = "invalid" :=
  ⟨rfl, rfl, (package_has_valid_name_correct pkgLower).2 "invalid" rfl rfl⟩

/-! ## Claim C1: the verdict aggregation rule -/

/--
Claim C1, amended: whenever lint_package returns a verdict at all (when
metadata_folder_is_flat does not raise), the verdict is invalid exactly
when one of the seven strict predicates fails, needs review exactly when
no strict predicate fails and some advisory predicate fails, and valid
exactly when all ten predicates pass.
-/
theorem lint_package_verdict_rule (p : Package) (v : String) (d : List Diag)
    (h : lint_package_logged p = Except.ok (v, d)) :
    (v = "invalid" ↔ blockingFailure p) ∧
    (v = "needs review" ↔ ¬ blockingFailure p ∧ advisoryFailure p) ∧
    (v = "valid" ↔ ¬ blockingFailure p ∧ ¬ advisoryFailure p) := by
  cases hf : metadata_folder_is_flat p with
  | error e =>
    rw [lint_package_logged_of_flat_error p e hf] at h
    exact Except.noConfusion h
  | ok fl =>
    have hflat_iff : (∃ dl, metadata_folder_is_flat p = Except.ok (false, dl)) ↔ fl.1 = false := by
      constructor
      · rintro ⟨dl, hdl⟩
        rw [hf] at hdl
        have h2 : fl = (false, dl) := Except.ok.inj hdl
        rw [h2]
      · intro h1
        refine ⟨fl.2, ?_⟩
        rw [hf]
        cases fl with
        | mk a b =>
          simp only at h1
          rw [h1]
    have hbf : blockingFailure p ↔
        ((package_has_valid_name p).1 && (package_has_two_subfolders p).1 &&
         (package_has_valid_subfolder_names p).1 && fl.1 &&
         (metadata_has_correct_naming_convention p).1 &&
         (objects_folder_correct_structure p).1 &&
         (objects_folder_has_no_empty_folder p).1) = false := by
      unfold blockingFailure
      rw [hflat_iff]
      exact (and7_eq_false_iff _ _ _ _ _ _ _).symm
    have haf : advisoryFailure p ↔
        ((package_has_no_hidden_file p).1 && (package_has_no_zero_bytes_file p).1 &&
         (metadata_folder_has_files p).1) = false := by
      unfold advisoryFailure
      exact (and3_eq_false_iff _ _ _).symm
    rw [lint_package_logged_of_flat_ok p fl hf] at h
    simp only [Except.ok.injEq, Prod.mk.injEq] at h
    obtain ⟨hv, hd⟩ := h
    subst hv
    cases hB : ((package_has_valid_name p).1 && (package_has_two_subfolders p).1 &&
        (package_has_valid_subfolder_names p).1 && fl.1 &&
        (metadata_has_correct_naming_convention p).1 &&
        (objects_folder_correct_structure p).1 &&
        (objects_folder_has_no_empty_folder p).1) <;>
      cases hA : ((package_has_no_hidden_file p).1 && (package_has_no_zero_bytes_file p).1 &&
        (metadata_folder_has_files p).1) <;>
      simp [hbf, haf, hB, hA]

/-- Witness for the amended claim C1 at the conforming package. -/
theorem lint_package_verdict_rule_witness :
    lint_package_logged goodPkg = Except.ok ("valid", []) ∧
    ((("valid" : String) = "invalid" ↔ blockingFailure goodPkg) ∧
     (("valid" : String) = "needs review" ↔ ¬ blockingFailure goodPkg ∧ advisoryFailure goodPkg) ∧
     (("valid" : String) = "valid" ↔ ¬ blockingFailure goodPkg ∧ ¬ advisoryFailure goodPkg)) :=
  ⟨rfl, lint_package_verdict_rule goodPkg "valid" [] rfl⟩

/--
Counterexample to claim C1 as stated: on a package whose metadata child
is a plain file, a strict predicate fails, yet lint_package does not
return the verdict invalid; it raises NotADirectoryError instead.
-/
theorem lint_package_verdict_rule_cex :
    (package_has_two_subfolders cexMetadataFile).1 = false ∧
    lint_package_logged cexMetadataFile = Except.error PyErr.notADirectoryError :=
  ⟨rfl, rfl⟩

/-! ## Claim C5: diagnostics and the return value -/

theorem pair_diag_len (c : Prop) [Decidable c] (x : Diag) :
    ((if c then ((true : Bool), ([] : List Diag)) else (false, [x])).2).length =
      failTally (if c then ((true : Bool), ([] : List Diag)) else (false, [x])).1 := by
  unfold failTally
  split <;> simp

theorem pair_diag_len_rev (c : Prop) [Decidable c] (x : Diag) :
    ((if c then ((false : Bool), [x]) else (true, ([] : List Diag))).2).length =
      failTally (if c then ((false : Bool), [x]) else (true, ([] : List Diag))).1 := by
  unfold failTally
  split <;> simp

theorem diag_len_valid_name (p : Package) :
    (package_has_valid_name p).2.length = failTally (package_has_valid_name p).1 := by
  unfold package_has_valid_name
  exact pair_diag_len _ _

theorem diag_len_two_subfolders (p : Package) :
    (package_has_two_subfolders p).2.length = failTally (package_has_two_subfolders p).1 := by
  unfold package_has_two_subfolders
  exact pair_diag_len _ _

theorem diag_len_subfolder_names (p : Package) :
    (package_has_valid_subfolder_names p).2.length =
      failTally (package_has_valid_subfolder_names p).1 := by
  unfold package_has_valid_subfolder_names
  exact pair_diag_len _ _

theorem diag_len_no_hidden (p : Package) :
    (package_has_no_hidden_file p).2.length = failTally (package_has_no_hidden_file p).1 := by
  unfold package_has_no_hidden_file
  exact pair_diag_len _ _

theorem diag_len_no_zero_bytes (p : Package) :
    (package_has_no_zero_bytes_file p).2.length =
      failTally (package_has_no_zero_bytes_file p).1 := by
  unfold package_has_no_zero_bytes_file
  exact pair_diag_len _ _

theorem diag_len_metadata_has_files (p : Package) :
    (metadata_folder_has_files p).2.length = failTally (metadata_folder_has_files p).1 := by
  unfold metadata_folder_has_files
  exact pair_diag_len_rev _ _

theorem diag_len_naming (p : Package) :
    (metadata_has_correct_naming_convention p).2.length =
      failTally (metadata_has_correct_naming_convention p).1 := by
  unfold metadata_has_correct_naming_convention
  exact pair_diag_len _ _

theorem diag_len_objects_structure (p : Package) :
    (objects_folder_correct_structure p).2.length =
      failTally (objects_folder_correct_structure p).1 := by
  unfold objects_folder_correct_structure
  exact pair_diag_len _ _

theorem diag_len_no_empty_folder (p : Package) :
    (objects_folder_has_no_empty_folder p).2.length =
      failTally (objects_folder_has_no_empty_folder p).1 := by
  unfold objects_folder_has_no_empty_folder
  exact pair_diag_len _ _

theorem diag_len_flat (p : Package) (fl : Bool × List Diag)
    (hf : metadata_folder_is_flat p = Except.ok fl) :
    fl.2.length = failTally fl.1 := by
  cases hfc : findChild p.iterdir "metadata" with
  | none =>
    rw [show metadata_folder_is_flat p = Except.error PyErr.fileNotFoundError from by
      simp [metadata_folder_is_flat, hfc]] at hf
    exact Except.noConfusion hf
  | some e =>
    cases e with
    | file n s =>
      rw [show metadata_folder_is_flat p = Except.error PyErr.notADirectoryError from by
        simp [metadata_folder_is_flat, hfc]] at hf
      exact Except.noConfusion hf
    | dir n cs =>
      have h2 : metadata_folder_is_flat p =
          (if (cs.toList.filter FsEntry.isDir).isEmpty then Except.ok ((true : Bool), ([] : List Diag))
           else Except.ok (false, [Diag.mk Severity.error
             (p.name ++ " has unexpected directory: " ++
               String.intercalate ", " ((cs.toList.filter FsEntry.isDir).map FsEntry.entryName))])) := by
        simp [metadata_folder_is_flat, hfc]
      rw [h2] at hf
      split at hf <;>
        · obtain rfl := (Except.ok.inj hf).symm
          simp [failTally]

/--
Claim C5, amended: the Python function returns only the verdict string;
the failure diagnostics go to the module logger, one record per failed
predicate, which the instrumented embedding returns alongside the
verdict: when lint_package returns normally the number of emitted
diagnostics equals the number of failed predicates.
-/
theorem lint_package_one_diag_per_failed_predicate (p : Package) (fl : Bool × List Diag)
    (v : String) (d : List Diag)
    (hf : metadata_folder_is_flat p = Except.ok fl)
    (h : lint_package_logged p = Except.ok (v, d)) :
    d.length =
      failTally (package_has_no_hidden_file p).1 + failTally (package_has_no_zero_bytes_file p).1 +
      failTally (metadata_folder_has_files p).1 + failTally (package_has_valid_name p).1 +
      failTally (package_has_two_subfolders p).1 +
      failTally (package_has_valid_subfolder_names p).1 + failTally fl.1 +
      failTally (metadata_has_correct_naming_convention p).1 +
      failTally (objects_folder_correct_structure p).1 +
      failTally (objects_folder_has_no_empty_folder p).1 := by
  rw [lint_package_logged_of_flat_ok p fl hf] at h
  simp only [Except.ok.injEq, Prod.mk.injEq] at h
  obtain ⟨hv, hd⟩ := h
  rw [← hd]
  simp only [List.length_append]
  rw [diag_len_no_hidden, diag_len_no_zero_bytes, diag_len_metadata_has_files,
    diag_len_valid_name, diag_len_two_subfolders, diag_len_subfolder_names,
    diag_len_flat p fl hf, diag_len_naming, diag_len_objects_structure,
    diag_len_no_empty_folder]

/-- Witness for the amended claim C5 at a package failing only the name check. -/
theorem lint_package_one_diag_per_failed_predicate_witness :
    metadata_folder_is_flat pkgBadName = Except.ok (true, []) ∧
    (lint_package_logged pkgBadName).map (fun r => r.2.length) = Except.ok 1 ∧
    ([Diag.mk Severity.error ("ACQ_BAD" ++ " does not conform to ACQ_####_######")] :
        List Diag).length =
      failTally (package_has_no_hidden_file pkgBadName).1 +
      failTally (package_has_no_zero_bytes_file pkgBadName).1 +
      failTally (metadata_folder_has_files pkgBadName).1 +
      failTally (package_has_valid_name pkgBadName).1 +
      failTally (package_has_two_subfolders pkgBadName).1 +
      failTally (package_has_valid_subfolder_names pkgBadName).1 + failTally true +
      failTally (metadata_has_correct_naming_convention pkgBadName).1 +
      failTally (objects_folder_correct_structure pkgBadName).1 +
      failTally (objects_folder_has_no_empty_folder pkgBadName).1 :=
  ⟨rfl, rfl,
    lint_package_one_diag_per_failed_predicate pkgBadName (true, []) "invalid"
      [Diag.mk Severity.error ("ACQ_BAD" ++ " does not conform to ACQ_####_######")] rfl rfl⟩

/--
Counterexample to claim C5 as stated: two packages with different
diagnostic lists, one against three records, receive the very same
return value from lint_package, so the return value cannot carry the
list of collected diagnostics; those only reach the logger.
-/
theorem lint_package_return_value_cex :
    lint_package pkgBadName = lint_package pkgBadNameExtraDir ∧
    (lint_package_logged pkgBadName).map (fun r => r.2.length) = Except.ok 1 ∧
    (lint_package_logged pkgBadNameExtraDir).map (fun r => r.2.length) = Except.ok 3 ∧
    (1 : Nat) ≠ 3 :=
  ⟨rfl, rfl, rfl, by decide⟩

/-! ## Claim C6: the objects structure check -/

theorem objectsPathExists_eq (p : Package) (n : String) :
    objectsPathExists p n = pathExistsIn p.iterdir ["objects", n] := by
  unfold objectsPathExists objectsChildEntries pathExistsIn
  cases h : findChild p.iterdir "objects" with
  | none => simp
  | some e => cases e <;> simp [pathExistsIn]

/--
Claim C6: the predicate passes exactly when the five fixed paths below
the package, the data entry and the four bag sidecar files underneath
objects, all exist, and on failure its single diagnostic lists exactly
the missing names.
-/
theorem objects_folder_correct_structure_correct (p : Package) :
    ((objects_folder_correct_structure p).1 = true ↔
      ∀ n ∈ objectsExpectedNames, pathExistsIn p.iterdir ["objects", n] = true) ∧
    ((objects_folder_correct_structure p).1 = false →
      (objects_folder_correct_structure p).2 = [objectsMissingDiag p]) := by
  have hmiss : objectsExpectedNames.filter (fun n => !(objectsPathExists p n)) =
      missingNamesSpec p := by
    unfold missingNamesSpec
    apply List.filter_congr
    intro n _
    rw [objectsPathExists_eq]
  constructor
  · simp only [objects_folder_correct_structure]
    rw [ite_fst_true_iff]
    simp only [List.isEmpty_iff, List.filter_eq_nil_iff, Bool.not_eq_true,
      objectsPathExists_eq, Bool.not_eq_false]
    constructor <;> intro h a ha <;> simpa using h a ha
  · intro hfalse
    have hcond :
        ¬ ((objectsExpectedNames.filter (fun n => !(objectsPathExists p n))).isEmpty = true) := by
      intro hc
      simp only [objects_folder_correct_structure, if_pos hc] at hfalse
      exact Bool.noConfusion hfalse
    simp only [objects_folder_correct_structure, if_neg hcond]
    unfold objectsMissingDiag
    rw [hmiss]

/--
Witness for claim C6: the conforming package passes, and a package
missing its bagit.txt sidecar file fails with the missing name reported.
-/
theorem objects_folder_correct_structure_correct_witness :
    (objects_folder_correct_structure goodPkg).1 = true ∧
    (objects_folder_correct_structure pkgNoBagit).2 = [objectsMissingDiag pkgNoBagit] :=
  ⟨(objects_folder_correct_structure_correct goodPkg).1.mpr (by decide),
   (objects_folder_correct_structure_correct pkgNoBagit).2 rfl⟩

/-! ## Claim C7: the batch reporter -/

theorem lint_verdict_cases (p : Package) (v : String) (h : lint_package p = Except.ok v) :
    v = "valid" ∨ v = "invalid" ∨ v = "needs review" := by
  unfold lint_package at h
  cases hf : metadata_folder_is_flat p with
  | error e =>
    rw [lint_package_logged_of_flat_error p e hf] at h
    simp [Except.map] at h
  | ok fl =>
    rw [lint_package_logged_of_flat_ok p fl hf] at h
    simp only [Except.map, Except.ok.injEq] at h
    split at h
    · split at h
      · exact Or.inl h.symm
      · exact Or.inr (Or.inr h.symm)
    · exact Or.inr (Or.inl h.symm)

theorem hasVerdict_eq (p : Package) (r : String) (hr : lint_package p = Except.ok r)
    (x : String) : hasVerdict p x = (r == x) := by
  unfold hasVerdict
  rw [hr]

theorem runBatchFrom_ok_spec (ps : List Package) :
    ∀ st res, runBatchFrom st ps = Except.ok res →
      res.valid = st.valid ++ (ps.filter (fun p => hasVerdict p "valid")).map Package.name ∧
      res.invalid = st.invalid ++ (ps.filter (fun p => hasVerdict p "invalid")).map Package.name ∧
      res.needs_review =
        st.needs_review ++ (ps.filter (fun p => hasVerdict p "needs review")).map Package.name ∧
      res.counter = st.counter + ps.length ∧
      res.valid.length + res.invalid.length + res.needs_review.length =
        st.valid.length + st.invalid.length + st.needs_review.length + ps.length := by
  induction ps with
  | nil =>
    intro st res h
    simp only [runBatchFrom] at h
    obtain rfl : st = res := Except.ok.inj h
    simp
  | cons p rest ih =>
    intro st res h
    simp only [runBatchFrom] at h
    cases hr : lint_package p with
    | error e =>
      rw [hr] at h
      exact Except.noConfusion h
    | ok r =>
      rw [hr] at h
      have hrec := ih (batchStep st p.name r) res h
      obtain ⟨h1, h2, h3, h4, h5⟩ := hrec
      rcases lint_verdict_cases p r hr with rfl | rfl | rfl
      · have hst : batchStep st p.name "valid" =
            { st with valid := st.valid ++ [p.name], counter := st.counter + 1 } := by
          simp [batchStep]
        rw [hst] at h1 h2 h3 h4 h5
        refine ⟨?_, ?_, ?_, ?_, ?_⟩
        · simp [h1, List.filter_cons, hasVerdict_eq p "valid" hr]
        · simp [h2, List.filter_cons, hasVerdict_eq p "valid" hr]
        · simp [h3, List.filter_cons, hasVerdict_eq p "valid" hr]
        · rw [h4]
          simp only [List.length_cons]
          omega
        · rw [h5]
          simp only [List.length_append, List.length_cons, List.length_nil]
          omega
      · have hst : batchStep st p.name "invalid" =
            { st with invalid := st.invalid ++ [p.name], counter := st.counter + 1 } := by
          simp [batchStep]
        rw [hst] at h1 h2 h3 h4 h5
        refine ⟨?_, ?_, ?_, ?_, ?_⟩
        · simp [h1, List.filter_cons, hasVerdict_eq p "invalid" hr]
        · simp [h2, List.filter_cons, hasVerdict_eq p "invalid" hr]
        · simp [h3, List.filter_cons, hasVerdict_eq p "invalid" hr]
        · rw [h4]
          simp only [List.length_cons]
          omega
        · rw [h5]
          simp only [List.length_append, List.length_cons, List.length_nil]
          omega
      · have hst : batchStep st p.name "needs review" =
            { st with needs_review := st.needs_review ++ [p.name], counter := st.counter + 1 } := by
          simp [batchStep]
        rw [hst] at h1 h2 h3 h4 h5
        refine ⟨?_, ?_, ?_, ?_, ?_⟩
        · simp [h1, List.filter_cons, hasVerdict_eq p "needs review" hr]
        · simp [h2, List.filter_cons, hasVerdict_eq p "needs review" hr]
        · simp [h3, List.filter_cons, hasVerdict_eq p "needs review" hr]
        · rw [h4]
          simp only [List.length_cons]
          omega
        · rw [h5]
          simp only [List.length_append, List.length_cons, List.length_nil]
          omega

/--
Claim C7, amended: when the batch loop finishes without an uncaught
exception from lint_package, each package name lands in the one bucket
matching its verdict, input order is preserved inside each bucket, and
the reported total equals the number of input packages, which equals the
sum of the three bucket sizes.
-/
theorem runBatch_partition (ps : List Package) (res : BatchResult)
    (h : runBatch ps = Except.ok res) :
    res.valid = (ps.filter (fun p => hasVerdict p "valid")).map Package.name ∧
    res.invalid = (ps.filter (fun p => hasVerdict p "invalid")).map Package.name ∧
    res.needs_review = (ps.filter (fun p => hasVerdict p "needs review")).map Package.name ∧
    res.counter = ps.length ∧
    res.valid.length + res.invalid.length + res.needs_review.length = ps.length := by
  have hspec := runBatchFrom_ok_spec ps (BatchResult.mk [] [] [] 0) res h
  simpa using hspec

/-- Witness for the amended claim C7 on a one package batch. -/
theorem runBatch_partition_witness :
    runBatch [goodPkg] = Except.ok (BatchResult.mk ["ACQ_1234_123456"] [] [] 1) ∧
    (["ACQ_1234_123456"] = (([goodPkg].filter (fun p => hasVerdict p "valid")).map Package.name) ∧
     ([] : List String) = (([goodPkg].filter (fun p => hasVerdict p "invalid")).map Package.name) ∧
     ([] : List String) =
       (([goodPkg].filter (fun p => hasVerdict p "needs review")).map Package.name) ∧
     (1 : Nat) = [goodPkg].length ∧
     (["ACQ_1234_123456"] : List String).length + ([] : List String).length +
       ([] : List String).length = [goodPkg].length) :=
  ⟨rfl, runBatch_partition [goodPkg] (BatchResult.mk ["ACQ_1234_123456"] [] [] 1) rfl⟩

/--
Counterexample to claim C7 as stated: a batch containing a package whose
metadata directory is missing aborts with an uncaught exception; no
bucket assignment and no total are ever reported, even for the healthy
package that preceded the bad one.
-/
theorem runBatch_abort_cex :
    runBatch [goodPkg, cexNoMetadata] = Except.error PyErr.fileNotFoundError := rfl

/-! ## Claim C9: linting is read only -/

theorem applyCall_of_read (p : Package) (c : FsCall) (h : c.isRead = true) :
    applyCall p c = p := by
  cases c <;> first | rfl | exact Bool.noConfusion h

theorem applyCall_writeTouch_example :
    applyCall (Package.mk "p" FsList.nil) (FsCall.writeTouch "x") =
      Package.mk "p" (FsList.cons (FsEntry.file "x" 0) FsList.nil) := rfl

theorem foldl_applyCall_of_reads (l : List FsCall) :
    ∀ p : Package, (∀ c ∈ l, c.isRead = true) → l.foldl applyCall p = p := by
  induction l with
  | nil =>
    intro p _
    rfl
  | cons c rest ih =>
    intro p h
    rw [List.foldl_cons, applyCall_of_read p c (h c (List.mem_cons_self c rest))]
    exact ih p (fun x hx => h x (List.mem_cons_of_mem c hx))

theorem trace_no_hidden_reads (p : Package) (c : FsCall)
    (h : c ∈ trace_package_has_no_hidden_file p) : c.isRead = true := by
  unfold trace_package_has_no_hidden_file at h
  simp only [List.mem_singleton] at h
  subst h
  rfl

theorem trace_no_zero_bytes_reads (p : Package) (c : FsCall)
    (h : c ∈ trace_package_has_no_zero_bytes_file p) : c.isRead = true := by
  unfold trace_package_has_no_zero_bytes_file at h
  simp only [List.mem_cons, List.mem_append, List.mem_map] at h
  rcases h with rfl | ⟨a, _, rfl⟩ | ⟨a, _, rfl⟩ <;> rfl

theorem trace_metadata_has_files_reads (p : Package) (c : FsCall)
    (h : c ∈ trace_metadata_folder_has_files p) : c.isRead = true := by
  unfold trace_metadata_folder_has_files at h
  simp only [List.mem_cons, List.mem_map] at h
  rcases h with rfl | ⟨a, _, rfl⟩ <;> rfl

theorem trace_valid_name_reads (p : Package) (c : FsCall)
    (h : c ∈ trace_package_has_valid_name p) : c.isRead = true := by
  unfold trace_package_has_valid_name at h
  exact absurd h (List.not_mem_nil c)

theorem trace_two_subfolders_reads (p : Package) (c : FsCall)
    (h : c ∈ trace_package_has_two_subfolders p) : c.isRead = true := by
  unfold trace_package_has_two_subfolders at h
  simp only [List.mem_cons, List.mem_map] at h
  rcases h with rfl | ⟨a, _, rfl⟩ <;> rfl

theorem trace_subfolder_names_reads (p : Package) (c : FsCall)
    (h : c ∈ trace_package_has_valid_subfolder_names p) : c.isRead = true := by
  unfold trace_package_has_valid_subfolder_names at h
  simp only [List.mem_singleton] at h
  subst h
  rfl

theorem trace_flat_reads (p : Package) (c : FsCall)
    (h : c ∈ trace_metadata_folder_is_flat p) : c.isRead = true := by
  unfold trace_metadata_folder_is_flat at h
  simp only [List.mem_cons] at h
  rcases h with rfl | h
  · rfl
  · cases hfc : findChild p.iterdir "metadata" with
    | none =>
      rw [hfc] at h
      simp at h
    | some e =>
      cases e with
      | file n s =>
        rw [hfc] at h
        simp at h
      | dir n cs =>
        rw [hfc] at h
        simp only [List.mem_map] at h
        obtain ⟨a, _, rfl⟩ := h
        rfl

theorem trace_naming_reads (p : Package) (c : FsCall)
    (h : c ∈ trace_metadata_has_correct_naming_convention p) : c.isRead = true := by
  unfold trace_metadata_has_correct_naming_convention at h
  simp only [List.mem_cons, List.mem_map] at h
  rcases h with rfl | ⟨a, _, rfl⟩ <;> rfl

theorem trace_objects_structure_reads (p : Package) (c : FsCall)
    (h : c ∈ trace_objects_folder_correct_structure p) : c.isRead = true := by
  unfold trace_objects_folder_correct_structure at h
  simp only [List.mem_map] at h
  obtain ⟨a, _, rfl⟩ := h
  rfl

theorem trace_no_empty_folder_reads (p : Package) (c : FsCall)
    (h : c ∈ trace_objects_folder_has_no_empty_folder p) : c.isRead = true := by
  unfold trace_objects_folder_has_no_empty_folder at h
  simp only [List.mem_cons, List.mem_append, List.mem_map] at h
  rcases h with rfl | ⟨a, _, rfl⟩ | ⟨a, _, rfl⟩ <;> rfl

theorem lintPackageTrace_reads (p : Package) :
    ∀ c ∈ lintPackageTrace p, c.isRead = true := by
  intro c hc
  unfold lintPackageTrace at hc
  cases hm : metadata_folder_is_flat p with
  | ok fl =>
    rw [hm] at hc
    simp only [List.mem_append] at hc
    rcases hc with ((((((h | h) | h) | h) | h) | h) | h) | ((h | h) | h)
    · exact trace_no_hidden_reads p c h
    · exact trace_no_zero_bytes_reads p c h
    · exact trace_metadata_has_files_reads p c h
    · exact trace_valid_name_reads p c h
    · exact trace_two_subfolders_reads p c h
    · exact trace_subfolder_names_reads p c h
    · exact trace_flat_reads p c h
    · exact trace_naming_reads p c h
    · exact trace_objects_structure_reads p c h
    · exact trace_no_empty_folder_reads p c h
  | error e =>
    rw [hm] at hc
    simp only [List.append_nil, List.mem_append] at hc
    rcases hc with (((((h | h) | h) | h) | h) | h) | h
    · exact trace_no_hidden_reads p c h
    · exact trace_no_zero_bytes_reads p c h
    · exact trace_metadata_has_files_reads p c h
    · exact trace_valid_name_reads p c h
    · exact trace_two_subfolders_reads p c h
    · exact trace_subfolder_names_reads p c h
    · exact trace_flat_reads p c h

/--
Claim C9: every filesystem call lint_package issues is a read; replaying
the full call trace of one evaluation against the package tree leaves the
tree unchanged, while the mutating pathlib calls modelled alongside, such
as touch, would change it.
-/
theorem lint_package_readonly (p : Package) :
    (lintPackageTrace p).foldl applyCall p = p :=
  foldl_applyCall_of_reads (lintPackageTrace p) p (lintPackageTrace_reads p)
